import Mathlib

/-!
Verification of `beman::indirect::indirect<T, Allocator>` (src/include/beman/indirect/indirect.hpp).

The wrapper owns at most one heap object of payload type `T` through a pointer `p`
(`p == nullptr` is the valueless state) and an allocator instance `alloc`.
We shallowly embed the class for a concrete payload (`Val := Int`) and a stateful
allocator identified by an id (as in the repository's `TestAllocator` /
`CountingAllocator`, whose `operator==` compares ids).

Modelling decisions, all read off the source:
* a storage handle is an address paired with the pointee: `none` for
  raw (unconstructed or already destroyed) memory, `some v` for a live `T` of value `v`;
* the compile-time allocator traits (`propagate_on_container_*`,
  `select_on_container_copy_construction`, the value of `Allocator{}`)
  form an `AllocType` record passed to each operation;
* calls that C++ lets throw (allocator `allocate`, `T`'s constructor through
  `construct`, `T`'s destructor through `destroy`) are driven by `Faults` flags:
  a flagged call throws whenever reached;
* every operation returns an `OpOut`: whether it threw, whether it executed
  undefined behaviour (destroying through a null pointer), the resulting
  state(s), and the list of allocator events it performed.
-/

abbrev Val := Int

/-- An allocator instance; equality is id equality, as for the test allocators. -/
structure Alloc where
  id : Nat
deriving DecidableEq, Repr

/-- Compile-time properties of the allocator type: the value of a
default-constructed instance, the select-on-container-copy-construction hook, and
the three propagation flags. -/
structure AllocType where
  dflt : Alloc
  socc : Alloc → Alloc
  pocca : Bool
  pocma : Bool
  pocs : Bool

/-- A storage handle: address plus pointee (`none` = no live object there). -/
abbrev Ptr := Nat × Option Val

/-- The wrapper state: `alloc` and the nullable pointer `p` (`indirect.hpp` lines 581-582). -/
structure Indirect where
  alloc : Alloc
  p : Option Ptr
deriving DecidableEq, Repr

/-- `valueless_after_move()` returns `p == nullptr` (line 433). -/
def Indirect.valueless_after_move (w : Indirect) : Bool := w.p.isNone

/-- `*w`: the owned value; meaningful only when a live object is owned. -/
def Indirect.star (w : Indirect) : Val :=
  match w.p with
  | some (_, some v) => v
  | _ => 0

/-- The address part of the handle, to observe storage reuse and transfer. -/
def Indirect.addr (w : Indirect) : Option Nat := w.p.map Prod.fst

/-- Which calls into the payload type or the allocator throw when reached. -/
structure Faults where
  allocFails : Bool
  constructFails : Bool
  destroyFails : Bool
deriving DecidableEq, Repr

def noFaults : Faults := ⟨false, false, false⟩

/-- Allocator events an operation performs. -/
inductive Event where
  | ealloc
  | edealloc
  | econstruct
  | edestroy
deriving DecidableEq, Repr

/-- Number of occurrences of an event in a log. -/
def countE (l : List Event) (e : Event) : Nat := (l.filter (fun x => x = e)).length

/-- The outcome of one operation: whether it threw, whether it hit undefined
behaviour, the resulting state(s), and the allocator events performed. -/
structure OpOut (σ : Type) where
  threw : Bool
  ub : Bool
  st : σ
  log : List Event

/-- `allocate_and_construct(args...)` (lines 570-579): allocate one unit, then
construct; if construction throws, deallocate and rethrow. Returns the new
handle on success. A throwing `allocate` performs no allocation. -/
def allocate_and_construct (f : Faults) (fr : Nat) (v : Val) : OpOut (Option Ptr) :=
  if f.allocFails then ⟨true, false, none, []⟩
  else if f.constructFails then ⟨true, false, none, [Event.ealloc, Event.edealloc]⟩
  else ⟨false, false, some (fr, some v), [Event.ealloc, Event.econstruct]⟩

/-- `unchecked_destroy_and_deallocate()` (lines 557-563): a `finally` guard
deallocates on every exit path; `destroy()` may throw, and that exception
propagates after the guard has run. Calling it with `p == nullptr` destroys
through a null pointer, which is undefined behaviour. -/
def unchecked_destroy_and_deallocate (f : Faults) (p : Option Ptr) : OpOut Unit :=
  ⟨f.destroyFails, p.isNone, (), [Event.edestroy, Event.edealloc]⟩

/-- `checked_destroy_and_deallocate()` (lines 545-548): no-op when `p == nullptr`.
Neither version writes `p`; callers null it themselves. -/
def checked_destroy_and_deallocate (f : Faults) (p : Option Ptr) : OpOut Unit :=
  match p with
  | none => ⟨false, false, (), []⟩
  | some pr => unchecked_destroy_and_deallocate f (some pr)

/-- The plain copy constructor (lines 46-47): `alloc(Allocator{})`, then
`p(other.valueless_after_move() ? nullptr : allocate_and_construct(*other))`. -/
def copy_ctor (A : AllocType) (f : Faults) (fr : Nat) (other : Indirect) : OpOut Indirect :=
  let a := A.dflt
  match other.p with
  | none => ⟨false, false, ⟨a, none⟩, []⟩
  | some _ =>
    let r := allocate_and_construct f fr other.star
    ⟨r.threw, false, ⟨a, r.st⟩, r.log⟩

/-- The plain move constructor (line 65): steal `other.p`, null `other.p`;
no allocator call, never throws. Returns (new wrapper, source afterwards). -/
def move_ctor (other : Indirect) : OpOut (Indirect × Indirect) :=
  ⟨false, false, (⟨other.alloc, other.p⟩, ⟨other.alloc, none⟩), []⟩

/-- The allocator-extended move constructor (lines 77-115), branch for branch:
shortcut 1 takes over ownership when `alloc == other.alloc`; shortcut 2 handles a
valueless source; otherwise a `finally` tears the source down on every exit path
(even when `allocate_ptr()` threw), and a construction failure is caught,
the fresh storage deallocated, and — as written — the exception is not rethrown:
the constructor returns normally with `p` still set to the deallocated storage. -/
def alloc_ext_move_ctor (f : Faults) (fr : Nat) (a : Alloc) (other : Indirect) :
    OpOut (Indirect × Indirect) :=
  if a = other.alloc then
    ⟨false, false, (⟨a, other.p⟩, ⟨other.alloc, none⟩), []⟩
  else
    match other.p with
    | none => ⟨false, false, (⟨a, none⟩, ⟨other.alloc, none⟩), []⟩
    | some _ =>
      if f.allocFails then
        -- allocate_ptr() throws; unwinding runs the finally, tearing down other
        ⟨true, false, (⟨a, none⟩, ⟨other.alloc, none⟩), [Event.edestroy, Event.edealloc]⟩
      else if f.constructFails then
        -- construct throws, catch deallocates, no rethrow; finally still tears down other
        ⟨f.destroyFails, false, (⟨a, some (fr, none)⟩, ⟨other.alloc, none⟩),
          [Event.ealloc, Event.edealloc, Event.edestroy, Event.edealloc]⟩
      else
        ⟨f.destroyFails, false, (⟨a, some (fr, some other.star)⟩, ⟨other.alloc, none⟩),
          [Event.ealloc, Event.econstruct, Event.edestroy, Event.edealloc]⟩

/-- Copy assignment (lines 234-290). `same` models `this == addressof(other)`
(then there are no effects). Branches, in source order: source valueless →
tear down target then null `p` and possibly propagate the allocator; equal
allocators and target not valueless → `**this = *other` in place; otherwise
build the new object first (with the target's allocator, or a copy of the
source's under propagation — either way allocate, try-construct,
catch-deallocate-rethrow), then tear down the old object, then update
allocator and `p`. Only the target changes; the source is const. -/
def copy_assign (A : AllocType) (f : Faults) (fr : Nat) (same : Bool) (t s : Indirect) :
    OpOut Indirect :=
  if same then ⟨false, false, t, []⟩
  else if s.p = none then
    let r := checked_destroy_and_deallocate f t.p
    if r.threw then ⟨true, r.ub, t, r.log⟩
    else ⟨false, r.ub, ⟨if A.pocca then s.alloc else t.alloc, none⟩, r.log⟩
  else if t.alloc = s.alloc ∧ t.p ≠ none then
    ⟨false, false, ⟨t.alloc, t.p.map (fun pr => (pr.1, some s.star))⟩, []⟩
  else
    let rc := allocate_and_construct f fr s.star
    if rc.threw then ⟨true, false, t, rc.log⟩
    else
      let rd := checked_destroy_and_deallocate f t.p
      if rd.threw then ⟨true, rd.ub, t, rc.log ++ rd.log⟩
      else ⟨false, false, ⟨if A.pocca then s.alloc else t.alloc, rc.st⟩, rc.log ++ rd.log⟩

/-- Move assignment (lines 315-361). `same` models `this == addressof(other)`.
Branches, in source order: source valueless → tear down target, null `p`,
propagate allocator if required; equal allocators → swap the handles, then
`other.unchecked_destroy_and_deallocate()` (unconditional in the source, so a
valueless target makes it destroy through null), then null `other.p`; otherwise
move-construct the new object, tear down source then target, and only then
commit allocator, `other.p = nullptr` and `this->p`. Returns (target, source). -/
def move_assign (A : AllocType) (f : Faults) (fr : Nat) (same : Bool) (t s : Indirect) :
    OpOut (Indirect × Indirect) :=
  if same then ⟨false, false, (t, s), []⟩
  else if s.p = none then
    let r := checked_destroy_and_deallocate f t.p
    if r.threw then ⟨true, r.ub, (t, s), r.log⟩
    else ⟨false, r.ub, (⟨if A.pocma then s.alloc else t.alloc, none⟩, s), r.log⟩
  else if t.alloc = s.alloc then
    let r := unchecked_destroy_and_deallocate f t.p
    if r.threw then ⟨true, r.ub, (⟨t.alloc, s.p⟩, ⟨s.alloc, t.p⟩), r.log⟩
    else ⟨false, r.ub, (⟨t.alloc, s.p⟩, ⟨s.alloc, none⟩), r.log⟩
  else
    let rc := allocate_and_construct f fr s.star
    if rc.threw then ⟨true, false, (t, s), rc.log⟩
    else
      let r1 := unchecked_destroy_and_deallocate f s.p
      if r1.threw then ⟨true, r1.ub, (t, s), rc.log ++ r1.log⟩
      else
        let r2 := checked_destroy_and_deallocate f t.p
        if r2.threw then ⟨true, r2.ub, (t, s), rc.log ++ r1.log ++ r2.log⟩
        else ⟨false, false,
          (⟨if A.pocma then s.alloc else t.alloc, rc.st⟩, ⟨s.alloc, none⟩),
          rc.log ++ r1.log ++ r2.log⟩

/-- `swap` (lines 451-458): exchange allocators only under
`propagate_on_container_swap`, then exchange the pointers; nothing else, no
allocator call, never throws. -/
def swap_fn (A : AllocType) (t o : Indirect) : OpOut (Indirect × Indirect) :=
  if A.pocs then ⟨false, false, (⟨o.alloc, o.p⟩, ⟨t.alloc, t.p⟩), []⟩
  else ⟨false, false, (⟨t.alloc, o.p⟩, ⟨o.alloc, t.p⟩), []⟩

/-- `operator==` between two wrappers (lines 471-477). -/
def ind_eq (l r : Indirect) : Bool :=
  if l.valueless_after_move || r.valueless_after_move then
    l.valueless_after_move == r.valueless_after_move
  else l.star == r.star

/-- `operator==` between a wrapper and a raw value (lines 484-489). -/
def ind_eq_val (l : Indirect) (v : Val) : Bool :=
  if l.valueless_after_move then false else l.star == v

/-- Modelled from the spec: `operator<=>(const indirect&, const indirect<U, AA>&)`
is only declared in the header (lines 496-498), with no definition under src.
Its documented Returns clause: "If lhs is valueless or rhs is valueless,
!lhs.valueless_after_move() <=> !rhs.valueless_after_move(); otherwise
synth-three-way(*lhs, *rhs)" (Booleans order false < true). -/
def ind_cmp (l r : Indirect) : Ordering :=
  if l.valueless_after_move || r.valueless_after_move then
    compare (!l.valueless_after_move) (!r.valueless_after_move)
  else compare l.star r.star

/-- Modelled from the spec: `operator<=>(const indirect&, const U&)` is only
declared in the header (lines 503-504), with no definition under src. Its
documented Returns clause: "If lhs is valueless, strong_ordering::less;
otherwise synth-three-way(*lhs, rhs)". -/
def ind_cmp_val (l : Indirect) (v : Val) : Ordering :=
  if l.valueless_after_move then Ordering.lt else compare l.star v

/-- C3: the claim (and the constructor's own documentation, lines 41-42) says the
plain copy constructor initializes its allocator from
`allocator_traits::select_on_container_copy_construction(other.alloc)`; the code
(line 47) default-constructs it instead. With `Allocator\x7b\x7d` of id 0, hook =
identity and a source allocator of id 7, the copy's allocator is id 0, not 7.
The valueless half of the claim does hold: a copy of a valueless source is
valueless with no allocator event. -/
theorem copy_ctor_ignores_select_on_copy :
    (copy_ctor ⟨⟨0⟩, fun a => a, false, false, false⟩ noFaults 1 ⟨⟨7⟩, some (0, some 5)⟩).st.alloc
      = ⟨0⟩
  ∧ (⟨⟨0⟩, fun a => a, false, false, false⟩ : AllocType).socc ⟨7⟩ = ⟨7⟩
  ∧ (⟨0⟩ : Alloc) ≠ ⟨7⟩
  ∧ (copy_ctor ⟨⟨0⟩, fun a => a, false, false, false⟩ noFaults 1 ⟨⟨7⟩, some (0, some 5)⟩).st.star
      = 5
  ∧ (copy_ctor ⟨⟨0⟩, fun a => a, false, false, false⟩ noFaults 1 ⟨⟨7⟩, none⟩).st.p = none
  ∧ (copy_ctor ⟨⟨0⟩, fun a => a, false, false, false⟩ noFaults 1 ⟨⟨7⟩, none⟩).log = [] :=
  ⟨rfl, rfl, by decide, rfl, rfl, rfl⟩

/-- C2: in the allocator-extended move constructor's unequal-allocator branch
(lines 94-114), a construction failure is caught and the fresh storage
deallocated, but the exception is never rethrown: the call reports success,
the result is not valueless although its storage has been deallocated and no
object was ever constructed in it, and the source has been torn down. When
`allocate` throws, the error does propagate, but the scope guard has already
destroyed, deallocated and nulled the source during unwinding, contradicting
"propagates before any destructive effect on the source". -/
theorem alloc_ext_move_ctor_swallows_and_tears_down :
    (alloc_ext_move_ctor ⟨false, true, false⟩ 5 ⟨1⟩ ⟨⟨2⟩, some (0, some 7)⟩).threw = false
  ∧ (alloc_ext_move_ctor ⟨false, true, false⟩ 5 ⟨1⟩
      ⟨⟨2⟩, some (0, some 7)⟩).st.1.valueless_after_move = false
  ∧ (alloc_ext_move_ctor ⟨false, true, false⟩ 5 ⟨1⟩ ⟨⟨2⟩, some (0, some 7)⟩).st.1.p
      = some (5, none)
  ∧ countE (alloc_ext_move_ctor ⟨false, true, false⟩ 5 ⟨1⟩
      ⟨⟨2⟩, some (0, some 7)⟩).log Event.edealloc = 2
  ∧ (alloc_ext_move_ctor ⟨true, false, false⟩ 5 ⟨1⟩ ⟨⟨2⟩, some (0, some 7)⟩).threw = true
  ∧ (alloc_ext_move_ctor ⟨true, false, false⟩ 5 ⟨1⟩ ⟨⟨2⟩, some (0, some 7)⟩).st.2.p = none
  ∧ Event.edestroy ∈ (alloc_ext_move_ctor ⟨true, false, false⟩ 5 ⟨1⟩
      ⟨⟨2⟩, some (0, some 7)⟩).log := by
  decide

/-- C10: self-swap is a no-op in every respect: both resulting states equal the
input wrapper (same payload, same valueless state, same allocator) and the log
is empty — no allocate, deallocate, construct or destroy call is made. -/
theorem self_swap_noop (A : AllocType) (w : Indirect) :
    (swap_fn A w w).st = (w, w) ∧ (swap_fn A w w).log = [] ∧ (swap_fn A w w).threw = false := by
  unfold swap_fn
  by_cases h : A.pocs <;> simp [h]

/-- C8: storage is never leaked by the two primitives. When
`allocate_and_construct`'s construction step throws, the just-allocated storage
is deallocated before the error propagates; when
`unchecked_destroy_and_deallocate`'s destroy step throws, the scope guard still
deallocates before the error propagates; and across an `allocate_and_construct`
paired with its eventual teardown the number of allocate events equals the
number of deallocate events. -/
theorem storage_never_leaked (f g : Faults) (fr : Nat) (v : Val) (pr : Ptr) :
    (f.allocFails = false → f.constructFails = true →
        (allocate_and_construct f fr v).threw = true
      ∧ (allocate_and_construct f fr v).log = [Event.ealloc, Event.edealloc])
  ∧ (g.destroyFails = true →
        (unchecked_destroy_and_deallocate g (some pr)).threw = true
      ∧ (unchecked_destroy_and_deallocate g (some pr)).log = [Event.edestroy, Event.edealloc])
  ∧ countE ((allocate_and_construct f fr v).log ++
        (if (allocate_and_construct f fr v).threw then []
         else (unchecked_destroy_and_deallocate g (some pr)).log)) Event.ealloc
    = countE ((allocate_and_construct f fr v).log ++
        (if (allocate_and_construct f fr v).threw then []
         else (unchecked_destroy_and_deallocate g (some pr)).log)) Event.edealloc := by
  rcases f with ⟨af, cf, df⟩
  cases af <;> cases cf <;>
    simp [allocate_and_construct, unchecked_destroy_and_deallocate, countE, List.filter]

/-- C8 witness: a construction failure and a destroy failure, both at concrete
inputs, each leaving the storage deallocated while reporting the throw. -/
theorem storage_never_leaked_witness :
    ((allocate_and_construct ⟨false, true, false⟩ 3 9).threw = true
      ∧ (allocate_and_construct ⟨false, true, false⟩ 3 9).log = [Event.ealloc, Event.edealloc])
  ∧ ((unchecked_destroy_and_deallocate ⟨false, false, true⟩ (some (3, some 9))).threw = true
      ∧ (unchecked_destroy_and_deallocate ⟨false, false, true⟩ (some (3, some 9))).log
          = [Event.edestroy, Event.edealloc]) :=
  ⟨(storage_never_leaked ⟨false, true, false⟩ ⟨false, false, true⟩ 3 9 (3, some 9)).1 rfl rfl,
   (storage_never_leaked ⟨false, true, false⟩ ⟨false, false, true⟩ 3 9 (3, some 9)).2.1 rfl⟩

/-- C5: wrapper-wrapper equality returns shared valueless-ness when either side
is valueless (so two valueless wrappers compare equal, and mixed pairs do not)
and delegates to the payloads' equality otherwise; wrapper-value equality is
false for a valueless wrapper and delegates to payload-vs-value equality
otherwise. -/
theorem equality_valueless_semantics (l r : Indirect) (v : Val) :
    (l.valueless_after_move = true → r.valueless_after_move = true → ind_eq l r = true)
  ∧ (l.valueless_after_move ≠ r.valueless_after_move → ind_eq l r = false)
  ∧ (l.valueless_after_move = false → r.valueless_after_move = false →
      ind_eq l r = (l.star == r.star))
  ∧ (l.valueless_after_move = true → ind_eq_val l v = false)
  ∧ (l.valueless_after_move = false → ind_eq_val l v = (l.star == v)) := by
  cases hl : l.valueless_after_move <;> cases hr : r.valueless_after_move <;>
    simp_all [ind_eq, ind_eq_val]

/-- C5 witness: two valueless wrappers (with different allocators) compare
equal, and a valueless wrapper does not compare equal to the raw value 5. -/
theorem equality_valueless_semantics_witness :
    ind_eq ⟨⟨1⟩, none⟩ ⟨⟨2⟩, none⟩ = true ∧ ind_eq_val ⟨⟨1⟩, none⟩ 5 = false :=
  ⟨(equality_valueless_semantics ⟨⟨1⟩, none⟩ ⟨⟨2⟩, none⟩ 5).1 rfl rfl,
   (equality_valueless_semantics ⟨⟨1⟩, none⟩ ⟨⟨2⟩, none⟩ 5).2.2.2.1 rfl⟩

/-- C9: the three-way comparison orders a valueless wrapper before any populated
one, on both sides (and two valueless wrappers compare equivalent); when both
are populated it delegates to the payloads' ordering; against a raw value a
valueless wrapper compares less. -/
theorem threeway_valueless_sorts_first (l r : Indirect) (v : Val) :
    (l.valueless_after_move = true → r.valueless_after_move = false →
      ind_cmp l r = Ordering.lt)
  ∧ (l.valueless_after_move = false → r.valueless_after_move = true →
      ind_cmp l r = Ordering.gt)
  ∧ (l.valueless_after_move = true → r.valueless_after_move = true →
      ind_cmp l r = Ordering.eq)
  ∧ (l.valueless_after_move = false → r.valueless_after_move = false →
      ind_cmp l r = compare l.star r.star)
  ∧ (l.valueless_after_move = true → ind_cmp_val l v = Ordering.lt) := by
  cases hl : l.valueless_after_move <;> cases hr : r.valueless_after_move <;>
    simp_all [ind_cmp, ind_cmp_val] <;> rfl

/-- C9 witness: a valueless wrapper sorts before a populated one and below the
raw value 5, and two populated wrappers delegate to the payload comparison. -/
theorem threeway_valueless_sorts_first_witness :
    ind_cmp ⟨⟨1⟩, none⟩ ⟨⟨2⟩, some (0, some 4)⟩ = Ordering.lt
  ∧ ind_cmp_val ⟨⟨1⟩, none⟩ 5 = Ordering.lt :=
  ⟨(threeway_valueless_sorts_first ⟨⟨1⟩, none⟩ ⟨⟨2⟩, some (0, some 4)⟩ 5).1 rfl rfl,
   (threeway_valueless_sorts_first ⟨⟨1⟩, none⟩ ⟨⟨2⟩, some (0, some 4)⟩ 5).2.2.2.2 rfl⟩

/-- C6: swap exchanges the two storage handles unconditionally, never throws,
performs no allocator event at all (no allocate, deallocate, construct or
destroy), and exchanges the allocators exactly when
`propagate_on_container_swap` holds, leaving them in place otherwise. -/
theorem swap_exchanges_handles (A : AllocType) (t o : Indirect) :
    (swap_fn A t o).threw = false
  ∧ (swap_fn A t o).log = []
  ∧ (swap_fn A t o).st.1.p = o.p
  ∧ (swap_fn A t o).st.2.p = t.p
  ∧ (A.pocs = true →
      (swap_fn A t o).st.1.alloc = o.alloc ∧ (swap_fn A t o).st.2.alloc = t.alloc)
  ∧ (A.pocs = false →
      (swap_fn A t o).st.1.alloc = t.alloc ∧ (swap_fn A t o).st.2.alloc = o.alloc) := by
  by_cases h : A.pocs <;> simp [swap_fn, h]

/-- C6 witness: swapping a valueless wrapper with a populated one under a
propagating allocator yields the mirror image, allocators included. -/
theorem swap_exchanges_handles_witness :
    (swap_fn ⟨⟨0⟩, fun a => a, false, false, true⟩ ⟨⟨1⟩, none⟩
        ⟨⟨2⟩, some (3, some 4)⟩).st.1.alloc = ⟨2⟩
  ∧ (swap_fn ⟨⟨0⟩, fun a => a, false, false, true⟩ ⟨⟨1⟩, none⟩
        ⟨⟨2⟩, some (3, some 4)⟩).st.2.alloc = ⟨1⟩ :=
  (swap_exchanges_handles ⟨⟨0⟩, fun a => a, false, false, true⟩ ⟨⟨1⟩, none⟩
    ⟨⟨2⟩, some (3, some 4)⟩).2.2.2.2.1 rfl

/-- C1: if copy assignment reaches the branch that constructs a brand-new
payload (source not valueless, and not the equal-allocator in-place path) and
that construction — allocation or the payload copy constructor — throws, the
target is left completely unchanged: same payload, same valueless state, same
allocator. With `destroyFails = false`, any throw of the assignment is such a
construction failure, so the hypothesis is simply that the call threw. -/
theorem copy_assign_construct_failure_leaves_target_unchanged
    (A : AllocType) (f : Faults) (fr : Nat) (t s : Indirect)
    (hs : s.valueless_after_move = false)
    (hd : f.destroyFails = false)
    (hthrew : (copy_assign A f fr false t s).threw = true) :
    (copy_assign A f fr false t s).st = t := by
  obtain ⟨pr, hpr⟩ : ∃ pr, s.p = some pr := by
    cases h : s.p with
    | none => simp [Indirect.valueless_after_move, h] at hs
    | some pr => exact ⟨pr, rfl⟩
  rcases f with ⟨af, cf, df⟩
  simp only at hd
  subst hd
  by_cases hb : t.alloc = s.alloc ∧ t.p ≠ none
  · simp [copy_assign, hpr, hb] at hthrew
  · cases af <;> cases cf <;>
      cases htp : t.p <;>
        simp_all [copy_assign, allocate_and_construct, checked_destroy_and_deallocate,
          unchecked_destroy_and_deallocate]

/-- C1 witness: target with allocator id 1 holding value 3, source with
allocator id 2 holding value 4; the payload copy constructor throws, and the
target is exactly as before. -/
theorem copy_assign_construct_failure_witness :
    (copy_assign ⟨⟨0⟩, fun a => a, false, false, false⟩ ⟨false, true, false⟩ 9 false
        ⟨⟨1⟩, some (0, some 3)⟩ ⟨⟨2⟩, some (1, some 4)⟩).st = ⟨⟨1⟩, some (0, some 3)⟩ :=
  copy_assign_construct_failure_leaves_target_unchanged
    ⟨⟨0⟩, fun a => a, false, false, false⟩ ⟨false, true, false⟩ 9
    ⟨⟨1⟩, some (0, some 3)⟩ ⟨⟨2⟩, some (1, some 4)⟩ (by decide) (by decide) (by decide)

/-- C7: copy assignment with equal allocators, target and source both holding a
value, reuses the target's storage (same address), assigns the source's value in
place, keeps the target's allocator, performs no allocator event at all, and
does not throw; a self-assignment trivially satisfies the same description. -/
theorem copy_assign_equal_alloc_fast_path
    (A : AllocType) (f : Faults) (fr : Nat) (same : Bool) (t s : Indirect)
    (hsame : same = true → s = t)
    (ha : t.alloc = s.alloc)
    (ht : t.valueless_after_move = false)
    (hs : s.valueless_after_move = false) :
    (copy_assign A f fr same t s).threw = false
  ∧ (copy_assign A f fr same t s).log = []
  ∧ (copy_assign A f fr same t s).st.alloc = t.alloc
  ∧ (copy_assign A f fr same t s).st.addr = t.addr
  ∧ (copy_assign A f fr same t s).st.star = s.star := by
  cases same with
  | true =>
    have hst := hsame rfl
    subst hst
    simp [copy_assign]
  | false =>
    obtain ⟨prt, hprt⟩ : ∃ pr, t.p = some pr := by
      cases h : t.p with
      | none => simp [Indirect.valueless_after_move, h] at ht
      | some pr => exact ⟨pr, rfl⟩
    obtain ⟨prs, hprs⟩ : ∃ pr, s.p = some pr := by
      cases h : s.p with
      | none => simp [Indirect.valueless_after_move, h] at hs
      | some pr => exact ⟨pr, rfl⟩
    have hb : t.alloc = s.alloc ∧ t.p ≠ none := ⟨ha, by simp [hprt]⟩
    simp [copy_assign, hprs, hb, hprt, Indirect.addr, Indirect.star]

/-- C7 witness: two wrappers sharing allocator id 3, target holding 1 at address
0 and source holding 2 at address 4: the assignment keeps address 0, stores the
value 2, and performs zero allocator events. -/
theorem copy_assign_equal_alloc_fast_path_witness :
    (copy_assign ⟨⟨0⟩, fun a => a, true, false, false⟩ noFaults 9 false
        ⟨⟨3⟩, some (0, some 1)⟩ ⟨⟨3⟩, some (4, some 2)⟩).log = []
  ∧ (copy_assign ⟨⟨0⟩, fun a => a, true, false, false⟩ noFaults 9 false
        ⟨⟨3⟩, some (0, some 1)⟩ ⟨⟨3⟩, some (4, some 2)⟩).st.addr = some 0
  ∧ (copy_assign ⟨⟨0⟩, fun a => a, true, false, false⟩ noFaults 9 false
        ⟨⟨3⟩, some (0, some 1)⟩ ⟨⟨3⟩, some (4, some 2)⟩).st.star = 2 := by
  have h := copy_assign_equal_alloc_fast_path ⟨⟨0⟩, fun a => a, true, false, false⟩
    noFaults 9 false ⟨⟨3⟩, some (0, some 1)⟩ ⟨⟨3⟩, some (4, some 2)⟩
    (by simp) (by decide) (by decide) (by decide)
  exact ⟨h.2.1, h.2.2.2.1, h.2.2.2.2⟩

/-- C4 counterexample: a self-move-assignment `w = std::move(w)` on a populated
wrapper takes the `this == addressof(other)` early return (lines 318-319): it
completes without error, yet the source is not valueless afterwards, refuting
the claim as stated for this move-assignment. -/
theorem self_move_assign_source_not_valueless :
    (move_assign ⟨⟨0⟩, fun a => a, false, false, false⟩ noFaults 0 true
        ⟨⟨1⟩, some (0, some 5)⟩ ⟨⟨1⟩, some (0, some 5)⟩).threw = false
  ∧ (move_assign ⟨⟨0⟩, fun a => a, false, false, false⟩ noFaults 0 true
        ⟨⟨1⟩, some (0, some 5)⟩ ⟨⟨1⟩, some (0, some 5)⟩).st.2.valueless_after_move = false := by
  decide

/-- C4 (amended): for a non-valueless source, plain move construction transfers
the storage handle directly (same handle, hence same value), makes the source
valueless, and performs no allocator event; and a move-assignment into a
distinct wrapper that completes without error and without the undefined
destroy-through-null leaves the source valueless and the destination holding
the source's prior payload value. -/
theorem move_empties_source
    (A : AllocType) (f : Faults) (fr : Nat) (t s : Indirect)
    (hs : s.valueless_after_move = false)
    (hok : (move_assign A f fr false t s).threw = false)
    (hub : (move_assign A f fr false t s).ub = false) :
    ((move_ctor s).st.1.p = s.p
      ∧ (move_ctor s).st.2.valueless_after_move = true
      ∧ (move_ctor s).log = [])
  ∧ ((move_assign A f fr false t s).st.2.valueless_after_move = true
      ∧ (move_assign A f fr false t s).st.1.star = s.star) := by
  refine ⟨⟨rfl, rfl, rfl⟩, ?_⟩
  obtain ⟨prs, hprs⟩ : ∃ pr, s.p = some pr := by
    cases h : s.p with
    | none => simp [Indirect.valueless_after_move, h] at hs
    | some pr => exact ⟨pr, rfl⟩
  rcases f with ⟨af, cf, df⟩
  by_cases hA : t.alloc = s.alloc
  · cases df <;>
      cases htp : t.p <;>
        simp_all [move_assign, unchecked_destroy_and_deallocate, Indirect.valueless_after_move,
          Indirect.star]
  · cases af <;> cases cf <;> cases df <;>
      cases htp : t.p <;>
        simp_all [move_assign, allocate_and_construct, checked_destroy_and_deallocate,
          unchecked_destroy_and_deallocate, Indirect.valueless_after_move, Indirect.star]

/-- C4 witness: moving a wrapper with allocator id 2 holding 4 into a distinct
wrapper with allocator id 1 holding 3 completes without error; afterwards the
source is valueless and the destination holds 4. -/
theorem move_empties_source_witness :
    (move_assign ⟨⟨0⟩, fun a => a, false, false, false⟩ noFaults 9 false
        ⟨⟨1⟩, some (0, some 3)⟩ ⟨⟨2⟩, some (1, some 4)⟩).st.2.valueless_after_move = true
  ∧ (move_assign ⟨⟨0⟩, fun a => a, false, false, false⟩ noFaults 9 false
        ⟨⟨1⟩, some (0, some 3)⟩ ⟨⟨2⟩, some (1, some 4)⟩).st.1.star = 4 :=
  (move_empties_source ⟨⟨0⟩, fun a => a, false, false, false⟩ noFaults 9
    ⟨⟨1⟩, some (0, some 3)⟩ ⟨⟨2⟩, some (1, some 4)⟩ (by decide) (by decide) (by decide)).2
